import Mathlib

/- A verification development for transpiler.py: a PLY-based transpiler from a
C++ subset to Python.  The lexer (the t_* rules), the yacc grammar (the p_*
productions together with the declared precedence table and yacc's default
conflict resolution), the AST node model and generate_code are embedded as
executable Lean definitions, and the theorems at the end settle the
specification claims against them.

Modelling notes, for the reader comparing against transpiler.py:
- PLY mutates a module-level lexer whose line counter is set to 1 when the
  module loads and is never reset by input(); this cross-call state is made
  explicit as LexerSt, threaded through transpile.
- PLY lexes lazily while yacc parses.  This interleaving is reproduced by
  having the scan return the token prefix it produces before a lexical
  fault together with the fault: the parser consumes the prefix, a syntax
  error among those tokens is raised as in the fused pipeline, and the
  lexical fault fires exactly when the parser requests a token beyond the
  prefix (yacc requests a lookahead at every decision point reflected in
  the recursive-descent functions, and acceptance itself requires reading
  the end marker, so a pending fault always preempts success).
- The t_newline rule matches a maximal run of newlines and advances lineno by
  its length; consuming the run one newline at a time is observably the same
  and is what lexAux does.
- yacc resolves a shift/reduce conflict by comparing the lookahead token's
  precedence with the reduced rule's (its rightmost terminal's) precedence,
  defaulting undeclared tokens to ('right', 0) and shifting on ties of
  right-associative rules.  For this grammar that yields the level/assoc
  table in opLevel and the climbing loop parseOps below; the single state
  where the output production keeps a second '<' viable after a complete
  expression is reflected by the coutCtx flag.
-/

/-- Scalar payload stored in token values and Node.value in transpiler.py:
Python None, int, float (kept as its scanned digit strings) or str. -/
inductive PyVal where
  | none : PyVal
  | intV (n : Int) : PyVal
  | fltV (ip fp : String) : PyVal
  | strV (s : String) : PyVal
deriving DecidableEq

/-- Decimal rendering of a scanned float literal: leading integer zeros and
trailing fraction zeros are normalized away, which is what CPython's
shortest-repr str(float(...)) prints for decimal literals within double
precision.  For literals beyond double precision (more than about 17
significant digits, or magnitudes that repr switches to exponent form)
this diverges from CPython; no theorem below depends on float
rendering. -/
def floatRepr (ip fp : String) : String :=
  let i := ip.data.dropWhile (fun c => c = '0')
  let istr := if i.isEmpty then "0" else String.mk i
  let f := (fp.data.reverse.dropWhile (fun c => c = '0')).reverse
  if f.isEmpty then istr ++ ".0" else istr ++ "." ++ String.mk f

/-- Python str() of a stored scalar: this is how f-strings in generate_code
and the two error messages render token/node values. -/
def pyStr : PyVal → String
  | PyVal.none => "None"
  | PyVal.intV n => toString n
  | PyVal.fltV ip fp => floatRepr ip fp
  | PyVal.strV s => s

/-- The token kinds of the lexer (the tuple `tokens` in transpiler.py),
with the value payload PLY stores for the rules that carry one. -/
inductive Tok where
  | IDENTIFIER (s : String)
  | NUMBER (v : PyVal)
  | STRING (s : String)
  | INT | FLOAT | CLASS | IF | ELSE | FOR | WHILE | RETURN | COUT | ENDL
  | LPAREN | RPAREN | LBRACE | RBRACE | SEMICOLON | COMMA
  | EQUALS | PLUS | MINUS | MULTIPLY | DIVIDE | LT | GT | AND | OR | NOT
  | COLON | ARROW | LBRACKET | RBRACKET
  | INCLUDE (s : String)
  | STRING_H | IOSTREAM | NAMESPACE | STD
  | PLUSPLUS
deriving DecidableEq

/-- str(p.value) for a token, as p_error interpolates it: the matched text
for string rules and identifiers, the computed number for t_NUMBER. -/
def tokVal : Tok → String
  | Tok.IDENTIFIER s => s
  | Tok.NUMBER v => pyStr v
  | Tok.STRING s => s
  | Tok.INT => "int"
  | Tok.FLOAT => "float"
  | Tok.CLASS => "class"
  | Tok.IF => "if"
  | Tok.ELSE => "else"
  | Tok.FOR => "for"
  | Tok.WHILE => "while"
  | Tok.RETURN => "return"
  | Tok.COUT => "cout"
  | Tok.ENDL => "endl"
  | Tok.LPAREN => "("
  | Tok.RPAREN => ")"
  | Tok.LBRACE => "\x7b"
  | Tok.RBRACE => "\x7d"
  | Tok.SEMICOLON => ";"
  | Tok.COMMA => ","
  | Tok.EQUALS => "="
  | Tok.PLUS => "+"
  | Tok.MINUS => "-"
  | Tok.MULTIPLY => "*"
  | Tok.DIVIDE => "/"
  | Tok.LT => "<"
  | Tok.GT => ">"
  | Tok.AND => "&&"
  | Tok.OR => "||"
  | Tok.NOT => "!"
  | Tok.COLON => ":"
  | Tok.ARROW => "->"
  | Tok.LBRACKET => "["
  | Tok.RBRACKET => "]"
  | Tok.INCLUDE s => s
  | Tok.STRING_H => "string"
  | Tok.IOSTREAM => "iostream"
  | Tok.NAMESPACE => "namespace"
  | Tok.STD => "std"
  | Tok.PLUSPLUS => "++"

/-- A token together with the 1-based line on which its match began. -/
abbrev TokL := Tok × Nat

/-- The reserved-word table of transpiler.py: keyword text to token kind,
consulted by t_IDENTIFIER. -/
def reservedLookup (s : String) : Tok :=
  if s = "int" then Tok.INT
  else if s = "float" then Tok.FLOAT
  else if s = "class" then Tok.CLASS
  else if s = "if" then Tok.IF
  else if s = "else" then Tok.ELSE
  else if s = "for" then Tok.FOR
  else if s = "while" then Tok.WHILE
  else if s = "return" then Tok.RETURN
  else if s = "cout" then Tok.COUT
  else if s = "endl" then Tok.ENDL
  else if s = "include" then Tok.INCLUDE s
  else if s = "string" then Tok.STRING_H
  else if s = "iostream" then Tok.IOSTREAM
  else if s = "namespace" then Tok.NAMESPACE
  else if s = "std" then Tok.STD
  else Tok.IDENTIFIER s

/-- First character of t_IDENTIFIER: [a-zA-Z_]. -/
def isIdentStart (c : Char) : Bool := c.isAlpha || c = '_'

/-- Continuation character of t_IDENTIFIER: [a-zA-Z0-9_]. -/
def isIdentChar (c : Char) : Bool := c.isAlpha || c.isDigit || c = '_'

/-- ASCII digit, for t_NUMBER. -/
def isDigitChar (c : Char) : Bool := c.isDigit

/-- Python regex \s, for the gap inside t_INCLUDE. -/
def isSpaceChar (c : Char) : Bool :=
  c = ' ' || c = '\t' || c = '\n' || c = '\r' || c = '\x0b' || c = '\x0c'

/-- Python regex \w (ASCII range), for the name inside t_INCLUDE. -/
def isWordChar (c : Char) : Bool := c.isAlpha || c.isDigit || c = '_'

/-- Numeric value of a digit run, as int(t.value) computes it. -/
def digitsToNat (ds : List Char) : Nat :=
  ds.foldl (fun a c => a * 10 + (c.toNat - '0'.toNat)) 0

/-- Strips a literal character sequence from the front, or fails. -/
def dropLit : List Char → List Char → Option (List Char)
  | [], cs => some cs
  | _ :: _, [] => Option.none
  | l :: ls, c :: cs => if c = l then dropLit ls cs else Option.none

/-- Matches the tail of t_INCLUDE after its '#': the literal "include", a
\s* gap, then '<' \w+ '>'.  Returns the full matched text (with the '#')
and the remaining characters.  The whitespace inside the gap can include
newlines without advancing the line counter, exactly as in the regex. -/
def matchInclude (cs : List Char) : Option (String × List Char) :=
  match dropLit "include".data cs with
  | Option.none => Option.none
  | some r1 =>
    let ws := r1.takeWhile isSpaceChar
    match r1.dropWhile isSpaceChar with
    | '<' :: r3 =>
      let w := r3.takeWhile isWordChar
      if w.isEmpty then Option.none
      else
        match r3.dropWhile isWordChar with
        | '>' :: r5 => some ("#include" ++ String.mk ws ++ "<" ++ String.mk w ++ ">", r5)
        | _ => Option.none
    | _ => Option.none

/-- Searches for the closing "*/" of a block comment without crossing a
newline (the t_ignore_COMMENT pattern uses '.', which does not match '\n');
returns the characters after the closing delimiter when found. -/
def blockCommentEnd : List Char → Option (List Char)
  | [] => Option.none
  | '\n' :: _ => Option.none
  | '*' :: '/' :: rest => some rest
  | _ :: rest => blockCommentEnd rest

/-- Result of the scan: either the complete token list plus the lexer's
final line counter, or the first unmatched character with the counter at
that point (what t_error raises from) together with the token prefix
produced before reaching it -- the tokens a lazily pulling parser can
still consume before the fault fires. -/
inductive LexRes where
  | toks (l : List TokL) (finLine : Nat) : LexRes
  | err (pre : List TokL) (c : Char) (line : Nat) : LexRes
deriving DecidableEq

/-- Prepends a token to a scan result (onto the pre-fault prefix when the
scan ends in a fault). -/
def pushTok (t : Tok) (ln : Nat) : LexRes → LexRes
  | LexRes.toks l fin => LexRes.toks ((t, ln) :: l) fin
  | LexRes.err pre c n => LexRes.err ((t, ln) :: pre) c n

/-- One left-to-right maximal-munch pass over the input, dispatching on the
leading character exactly as PLY's master regex does for these rules (the
rules' first characters are pairwise disjoint, so rule order inside PLY is
immaterial).  The fuel argument only bounds recursion; every step consumes
at least one character, so input length plus one suffices. -/
def lexAux : Nat → List Char → Nat → LexRes
  | 0, _, n => LexRes.err [] '\x00' n
  | _ + 1, [], n => LexRes.toks [] n
  | f + 1, c :: cs, n =>
    if c = ' ' || c = '\t' then lexAux f cs n
    else if c = '\n' then lexAux f cs (n + 1)
    else if isIdentStart c then
      let run := (c :: cs).takeWhile isIdentChar
      let rest := (c :: cs).dropWhile isIdentChar
      pushTok (reservedLookup (String.mk run)) n (lexAux f rest n)
    else if isDigitChar c then
      let ds := (c :: cs).takeWhile isDigitChar
      let rest := (c :: cs).dropWhile isDigitChar
      match rest with
      | '.' :: d :: r2 =>
        if isDigitChar d then
          let fs := (d :: r2).takeWhile isDigitChar
          let rest2 := (d :: r2).dropWhile isDigitChar
          pushTok (Tok.NUMBER (PyVal.fltV (String.mk ds) (String.mk fs))) n (lexAux f rest2 n)
        else pushTok (Tok.NUMBER (PyVal.intV (Int.ofNat (digitsToNat ds)))) n (lexAux f rest n)
      | _ => pushTok (Tok.NUMBER (PyVal.intV (Int.ofNat (digitsToNat ds)))) n (lexAux f rest n)
    else if c = '"' then
      let inner := cs.takeWhile (fun d => !(d = '"'))
      match cs.dropWhile (fun d => !(d = '"')) with
      | '"' :: rest => pushTok (Tok.STRING ("\"" ++ String.mk inner ++ "\"")) n (lexAux f rest n)
      | _ => LexRes.err [] '"' n
    else if c = '#' then
      match matchInclude cs with
      | some (text, rest) => pushTok (Tok.INCLUDE text) n (lexAux f rest n)
      | Option.none => LexRes.err [] '#' n
    else if c = '/' then
      match cs with
      | '/' :: r2 => lexAux f (r2.dropWhile (fun d => !(d = '\n'))) n
      | '*' :: r2 =>
        match blockCommentEnd r2 with
        | some rest => lexAux f rest n
        | Option.none => pushTok Tok.DIVIDE n (lexAux f cs n)
      | _ => pushTok Tok.DIVIDE n (lexAux f cs n)
    else if c = '+' then
      match cs with
      | '+' :: r2 => pushTok Tok.PLUSPLUS n (lexAux f r2 n)
      | _ => pushTok Tok.PLUS n (lexAux f cs n)
    else if c = '-' then
      match cs with
      | '>' :: r2 => pushTok Tok.ARROW n (lexAux f r2 n)
      | _ => pushTok Tok.MINUS n (lexAux f cs n)
    else if c = '&' then
      match cs with
      | '&' :: r2 => pushTok Tok.AND n (lexAux f r2 n)
      | _ => LexRes.err [] '&' n
    else if c = '|' then
      match cs with
      | '|' :: r2 => pushTok Tok.OR n (lexAux f r2 n)
      | _ => LexRes.err [] '|' n
    else if c = '(' then pushTok Tok.LPAREN n (lexAux f cs n)
    else if c = ')' then pushTok Tok.RPAREN n (lexAux f cs n)
    else if c = '\x7b' then pushTok Tok.LBRACE n (lexAux f cs n)
    else if c = '\x7d' then pushTok Tok.RBRACE n (lexAux f cs n)
    else if c = ';' then pushTok Tok.SEMICOLON n (lexAux f cs n)
    else if c = ',' then pushTok Tok.COMMA n (lexAux f cs n)
    else if c = '=' then pushTok Tok.EQUALS n (lexAux f cs n)
    else if c = '*' then pushTok Tok.MULTIPLY n (lexAux f cs n)
    else if c = '<' then pushTok Tok.LT n (lexAux f cs n)
    else if c = '>' then pushTok Tok.GT n (lexAux f cs n)
    else if c = '!' then pushTok Tok.NOT n (lexAux f cs n)
    else if c = ':' then pushTok Tok.COLON n (lexAux f cs n)
    else if c = '[' then pushTok Tok.LBRACKET n (lexAux f cs n)
    else if c = ']' then pushTok Tok.RBRACKET n (lexAux f cs n)
    else LexRes.err [] c n

/-- The lexical pass over a whole input, starting from the line counter the
module-level lexer happens to hold (1 on the first call after import). -/
def tokenize (code : String) (startLine : Nat) : LexRes :=
  lexAux (code.length + 1) code.data startLine

/-- The AST node of transpiler.py: a type tag, an ordered list of children
and an optional scalar payload, exactly the three fields of class Node. -/
inductive Node where
  | mk (t : String) (children : List Node) (value : PyVal)

/-- Accessor for the node's type tag. -/
def Node.type : Node → String
  | Node.mk t _ _ => t

/-- Accessor for the node's child list. -/
def Node.children : Node → List Node
  | Node.mk _ cs _ => cs

/-- Accessor for the node's scalar payload. -/
def Node.value : Node → PyVal
  | Node.mk _ _ v => v

/-- The indent_str of generate_code: four spaces per nesting level. -/
def indentStr (ind : Nat) : String := String.join (List.replicate ind "    ")

/-- The field-zeroing lines of the class branch of generate_code, one line
per declaration child, using only each declaration's name payload. -/
def classFieldLines (ds : List Node) (indentS : String) : String :=
  String.join (ds.map fun d => indentS ++ "        self." ++ pyStr d.value ++ " = 0\n")

/-- The parameter-name join of the function branch of generate_code. -/
def paramNames (ps : List Node) : String :=
  String.intercalate ", " (ps.map fun c => pyStr c.value)

/-- The op_map dictionary of the binop branch: arithmetic and comparison
operators map to themselves, the logical connectives to their word forms.
Any other key raises KeyError in Python; that case is unreachable from the
parser and is rendered as the key itself here. -/
def opMap (op : String) : String :=
  if op = "+" then "+"
  else if op = "-" then "-"
  else if op = "*" then "*"
  else if op = "/" then "/"
  else if op = "<" then "<"
  else if op = ">" then ">"
  else if op = "&&" then "and"
  else if op = "||" then "or"
  else op

mutual

/-- generate_code of transpiler.py: one bottom-up walk dispatching on the
node's type tag.  Branches whose children do not have the arity the grammar
guarantees raise IndexError in Python; those unreachable shapes return ""
here.  Unrecognized tags fall through all branches and return "", exactly
as in the source. -/
def generate_code : Node → Nat → String
  | Node.mk t cs v, ind =>
    let indentS := indentStr ind
    if t = "program" || t = "statements" then genList cs ind
    else if t = "declaration" then
      match cs with
      | [] => indentS ++ pyStr v ++ " = 0\n"
      | c :: _ => indentS ++ pyStr v ++ " = " ++ generate_code c 0 ++ "\n"
    else if t = "assignment" then
      match cs with
      | c :: _ => indentS ++ pyStr v ++ " = " ++ generate_code c 0 ++ "\n"
      | [] => ""
    else if t = "increment" then
      indentS ++ pyStr v ++ " = " ++ pyStr v ++ " + 1\n"
    else if t = "if" then
      match cs with
      | [g, b] =>
        indentS ++ "if " ++ generate_code g 0 ++ ":\n" ++ generate_code b (ind + 1)
      | [g, b, e] =>
        indentS ++ "if " ++ generate_code g 0 ++ ":\n" ++ generate_code b (ind + 1) ++
          indentS ++ "else:\n" ++ generate_code e (ind + 1)
      | _ => ""
    else if t = "for" then
      match cs with
      | [a, g, b] =>
        indentS ++ "for " ++ pyStr v ++ " in range(" ++ generate_code a 0 ++ ", " ++
          generate_code g 0 ++ "):\n" ++ generate_code b (ind + 1)
      | _ => ""
    else if t = "while" then
      match cs with
      | [g, b] =>
        indentS ++ "while " ++ generate_code g 0 ++ ":\n" ++ generate_code b (ind + 1)
      | _ => ""
    else if t = "function" then
      match cs with
      | [ps, b] =>
        indentS ++ "def " ++ pyStr v ++ "(" ++ paramNames ps.children ++ "):\n" ++
          generate_code b (ind + 1)
      | _ => ""
    else if t = "class" then
      match cs with
      | d :: _ =>
        indentS ++ "class " ++ pyStr v ++ ":\n" ++
          indentS ++ "    def __init__(self):\n" ++ classFieldLines d.children indentS
      | [] => ""
    else if t = "output" then
      match cs with
      | c :: _ =>
        let newlineS := if v = PyVal.strV "endl" then "\\n" else ""
        indentS ++ "print(" ++ generate_code c 0 ++ ", end=\x27" ++ newlineS ++ "\x27)\n"
      | [] => ""
    else if t = "return" then
      match cs with
      | c :: _ => indentS ++ "return " ++ generate_code c 0 ++ "\n"
      | [] => ""
    else if t = "binop" then
      match cs with
      | [a, b] => generate_code a 0 ++ " " ++ opMap (pyStr v) ++ " " ++ generate_code b 0
      | _ => ""
    else if t = "unop" then
      match cs with
      | c :: _ => "not " ++ generate_code c 0
      | [] => ""
    else if t = "literal" then pyStr v
    else ""

/-- Sequential generation over a child list, as the program/statements
branch loops over node.children accumulating result. -/
def genList : List Node → Nat → String
  | [], _ => ""
  | c :: rest, ind => generate_code c ind ++ genList rest ind

end

/-- Parse-time failure: the SyntaxError p_error raises, carrying the
unexpected token's rendered value and its line, or the unexpected-end
case when yacc runs out of tokens mid-production.  fuelOut is an artifact
of the fuel-based embedding, unreachable for the generous fuel
parseProgram supplies. -/
inductive PErr where
  | tokErr (v : String) (line : Nat)
  | eofErr
  | fuelOut
deriving DecidableEq

/-- The message of the SyntaxError p_error raises. -/
def perrMsg : PErr → String
  | PErr.tokErr v line => "Syntax error at \x27" ++ v ++ "\x27 on line " ++ toString line
  | PErr.eofErr => "Unexpected end of input"
  | PErr.fuelOut => "parser fuel exhausted"

/-- Consumes one specific payload-free token; p_error on any other
lookahead, the end-of-input error when the tokens ran out. -/
def expect (t : Tok) : List TokL → Except PErr (List TokL)
  | [] => Except.error PErr.eofErr
  | (t2, ln) :: rest =>
    if t2 = t then Except.ok rest else Except.error (PErr.tokErr (tokVal t2) ln)

/-- Consumes one IDENTIFIER token, returning its text. -/
def expectIdent : List TokL → Except PErr (String × List TokL)
  | [] => Except.error PErr.eofErr
  | (Tok.IDENTIFIER s, _) :: rest => Except.ok (s, rest)
  | (t, ln) :: _ => Except.error (PErr.tokErr (tokVal t) ln)

/-- Binary-operator table induced by the yacc precedence declarations and
PLY's defaults: (level, is-left-associative).  PLUS and MINUS are declared
('left', 1), MULTIPLY and DIVIDE ('left', 2); LT, GT, AND and OR appear in
no precedence declaration, hence default to ('right', 0), which is why the
comparison and logical operators end up right-associative and looser than
all arithmetic. -/
def opLevel : Tok → Option (Nat × Bool)
  | Tok.PLUS => some (1, true)
  | Tok.MINUS => some (1, true)
  | Tok.MULTIPLY => some (2, true)
  | Tok.DIVIDE => some (2, true)
  | Tok.LT => some (0, false)
  | Tok.GT => some (0, false)
  | Tok.AND => some (0, false)
  | Tok.OR => some (0, false)
  | _ => Option.none

/-- Tokens in FIRST(expression). -/
def startsExpr : Tok → Bool
  | Tok.NUMBER _ => true
  | Tok.IDENTIFIER _ => true
  | Tok.STRING _ => true
  | Tok.NOT => true
  | _ => false

/-- Tokens in FIRST(statement). -/
def isStmtStart : Tok → Bool
  | Tok.INT => true
  | Tok.FLOAT => true
  | Tok.IDENTIFIER _ => true
  | Tok.IF => true
  | Tok.FOR => true
  | Tok.WHILE => true
  | Tok.CLASS => true
  | Tok.COUT => true
  | Tok.RETURN => true
  | _ => false

mutual

/-- The primary and unary forms of p_expression: NUMBER, IDENTIFIER and
STRING become literal nodes carrying the token value; NOT builds a unop
whose operand is the remainder of the expression (the NOT production's
default ('right', 0) precedence never reduces before any operator, so the
negation binds loosest). -/
def parsePrimary : Nat → List TokL → Except PErr (Node × List TokL)
  | 0, _ => Except.error PErr.fuelOut
  | f + 1, ts =>
    match ts with
    | (Tok.NUMBER v, _) :: rest => Except.ok (Node.mk "literal" [] v, rest)
    | (Tok.IDENTIFIER s, _) :: rest => Except.ok (Node.mk "literal" [] (PyVal.strV s), rest)
    | (Tok.STRING s, _) :: rest => Except.ok (Node.mk "literal" [] (PyVal.strV s), rest)
    | (Tok.NOT, _) :: rest => do
      let (e, rest2) ← parseE f false 0 rest
      Except.ok (Node.mk "unop" [e] (PyVal.strV "!"), rest2)
    | (t, ln) :: _ => Except.error (PErr.tokErr (tokVal t) ln)
    | [] => Except.error PErr.eofErr

/-- The operator loop realizing yacc's shift/reduce resolution on the
binary p_expression productions: an operator of level lvl is consumed when
lvl is at least the current bound; the right operand is parsed with bound
lvl+1 for a left-associative operator and lvl for a right-associative one
(reduce exactly when the lookahead's level is lower, or equal with a
left-associative rule).  An operator not followed by a token that can
begin an expression was already shifted by yacc, which then fails on that
lookahead -- except a '<' followed by '<' while the output production is
still viable (coutCtx), where the expression is instead complete. -/
def parseOps : Nat → Bool → Nat → Node → List TokL → Except PErr (Node × List TokL)
  | 0, _, _, _, _ => Except.error PErr.fuelOut
  | f + 1, coutCtx, mn, left, ts =>
    match ts with
    | [] => Except.ok (left, [])
    | (t, _) :: rest =>
      match opLevel t with
      | Option.none => Except.ok (left, ts)
      | some (lvl, leftAssoc) =>
        if lvl < mn then Except.ok (left, ts)
        else
          match rest with
          | [] => Except.error PErr.eofErr
          | (t2, ln2) :: _ =>
            if startsExpr t2 then do
              let (right, ts2) ← parseE f false (if leftAssoc then lvl + 1 else lvl) rest
              parseOps f coutCtx mn (Node.mk "binop" [left, right] (PyVal.strV (tokVal t))) ts2
            else if coutCtx && t = Tok.LT && t2 = Tok.LT then Except.ok (left, ts)
            else Except.error (PErr.tokErr (tokVal t2) ln2)

/-- p_expression: a full expression parse from a minimum operator level. -/
def parseE : Nat → Bool → Nat → List TokL → Except PErr (Node × List TokL)
  | 0, _, _, _ => Except.error PErr.fuelOut
  | f + 1, coutCtx, mn, ts => do
    let (left, rest) ← parsePrimary f ts
    parseOps f coutCtx mn left rest

/-- p_statement: dispatch on the leading tokens to the unique viable
statement production, with p_error on any lookahead no production
accepts. -/
def parseStatement : Nat → List TokL → Except PErr (Node × List TokL)
  | 0, _ => Except.error PErr.fuelOut
  | f + 1, ts =>
    match ts with
    | (Tok.INT, _) :: (Tok.IDENTIFIER name, _) :: (Tok.EQUALS, _) :: rest => do
      let (e, r2) ← parseE f false 0 rest
      let r3 ← expect Tok.SEMICOLON r2
      Except.ok (Node.mk "declaration" [e] (PyVal.strV name), r3)
    | (Tok.INT, _) :: (Tok.IDENTIFIER name, _) :: (Tok.SEMICOLON, _) :: rest =>
      Except.ok (Node.mk "declaration" [] (PyVal.strV name), rest)
    | (Tok.INT, _) :: (Tok.IDENTIFIER name, _) :: (Tok.LPAREN, _) :: rest => do
      let (ps, r2) ← parseParams f rest
      let r3 ← expect Tok.RPAREN r2
      let r4 ← expect Tok.LBRACE r3
      let (ss, r5) ← parseStatements f r4
      let r6 ← expect Tok.RBRACE r5
      Except.ok (Node.mk "function"
        [Node.mk "params" ps PyVal.none, Node.mk "statements" ss PyVal.none]
        (PyVal.strV name), r6)
    | (Tok.INT, _) :: (Tok.IDENTIFIER _, _) :: (t, ln) :: _ =>
      Except.error (PErr.tokErr (tokVal t) ln)
    | (Tok.INT, _) :: (Tok.IDENTIFIER _, _) :: [] => Except.error PErr.eofErr
    | (Tok.INT, _) :: (t, ln) :: _ => Except.error (PErr.tokErr (tokVal t) ln)
    | (Tok.INT, _) :: [] => Except.error PErr.eofErr
    | (Tok.FLOAT, _) :: rest => do
      let (name, r2) ← expectIdent rest
      let r3 ← expect Tok.EQUALS r2
      let (e, r4) ← parseE f false 0 r3
      let r5 ← expect Tok.SEMICOLON r4
      Except.ok (Node.mk "declaration" [e] (PyVal.strV name), r5)
    | (Tok.IDENTIFIER name, _) :: (Tok.EQUALS, _) :: rest => do
      let (e, r2) ← parseE f false 0 rest
      let r3 ← expect Tok.SEMICOLON r2
      Except.ok (Node.mk "assignment" [e] (PyVal.strV name), r3)
    | (Tok.IDENTIFIER name, _) :: (Tok.PLUSPLUS, _) :: rest => do
      let r2 ← expect Tok.SEMICOLON rest
      Except.ok (Node.mk "increment" [] (PyVal.strV name), r2)
    | (Tok.IDENTIFIER _, _) :: (t, ln) :: _ => Except.error (PErr.tokErr (tokVal t) ln)
    | (Tok.IDENTIFIER _, _) :: [] => Except.error PErr.eofErr
    | (Tok.IF, _) :: rest => do
      let r2 ← expect Tok.LPAREN rest
      let (g, r3) ← parseE f false 0 r2
      let r4 ← expect Tok.RPAREN r3
      let r5 ← expect Tok.LBRACE r4
      let (ss, r6) ← parseStatements f r5
      let r7 ← expect Tok.RBRACE r6
      match r7 with
      | (Tok.ELSE, _) :: r8 => do
        let r9 ← expect Tok.LBRACE r8
        let (ss2, r10) ← parseStatements f r9
        let r11 ← expect Tok.RBRACE r10
        Except.ok (Node.mk "if"
          [g, Node.mk "statements" ss PyVal.none, Node.mk "statements" ss2 PyVal.none]
          PyVal.none, r11)
      | _ =>
        Except.ok (Node.mk "if" [g, Node.mk "statements" ss PyVal.none] PyVal.none, r7)
    | (Tok.FOR, _) :: rest => do
      let r2 ← expect Tok.LPAREN rest
      let r3 ← expect Tok.INT r2
      let (name, r4) ← expectIdent r3
      let r5 ← expect Tok.EQUALS r4
      let (e1, r6) ← parseE f false 0 r5
      let r7 ← expect Tok.SEMICOLON r6
      let (e2, r8) ← parseE f false 0 r7
      let r9 ← expect Tok.SEMICOLON r8
      let (_, r10) ← expectIdent r9
      let r11 ← expect Tok.PLUSPLUS r10
      let r12 ← expect Tok.RPAREN r11
      let r13 ← expect Tok.LBRACE r12
      let (ss, r14) ← parseStatements f r13
      let r15 ← expect Tok.RBRACE r14
      Except.ok (Node.mk "for" [e1, e2, Node.mk "statements" ss PyVal.none]
        (PyVal.strV name), r15)
    | (Tok.WHILE, _) :: rest => do
      let r2 ← expect Tok.LPAREN rest
      let (g, r3) ← parseE f false 0 r2
      let r4 ← expect Tok.RPAREN r3
      let r5 ← expect Tok.LBRACE r4
      let (ss, r6) ← parseStatements f r5
      let r7 ← expect Tok.RBRACE r6
      Except.ok (Node.mk "while" [g, Node.mk "statements" ss PyVal.none] PyVal.none, r7)
    | (Tok.CLASS, _) :: rest => do
      let (name, r2) ← expectIdent rest
      let r3 ← expect Tok.LBRACE r2
      let (ds, r4) ← parseClassFields f r3
      let r5 ← expect Tok.RBRACE r4
      let r6 ← expect Tok.SEMICOLON r5
      Except.ok (Node.mk "class" [Node.mk "declarations" ds PyVal.none]
        (PyVal.strV name), r6)
    | (Tok.COUT, _) :: rest => do
      let r2 ← expect Tok.LT rest
      let r3 ← expect Tok.LT r2
      let (e, r4) ← parseE f true 0 r3
      match r4 with
      | (Tok.SEMICOLON, _) :: r5 => Except.ok (Node.mk "output" [e] (PyVal.strV ""), r5)
      | (Tok.LT, _) :: r5 => do
        let r6 ← expect Tok.LT r5
        let r7 ← expect Tok.ENDL r6
        let r8 ← expect Tok.SEMICOLON r7
        Except.ok (Node.mk "output" [e] (PyVal.strV "endl"), r8)
      | (t, ln) :: _ => Except.error (PErr.tokErr (tokVal t) ln)
      | [] => Except.error PErr.eofErr
    | (Tok.RETURN, _) :: rest => do
      let (e, r2) ← parseE f false 0 rest
      let r3 ← expect Tok.SEMICOLON r2
      Except.ok (Node.mk "return" [e] PyVal.none, r3)
    | (t, ln) :: _ => Except.error (PErr.tokErr (tokVal t) ln)
    | [] => Except.error PErr.eofErr

/-- p_statements: one or more statements, children accumulated in order. -/
def parseStatements : Nat → List TokL → Except PErr (List Node × List TokL)
  | 0, _ => Except.error PErr.fuelOut
  | f + 1, ts => do
    let (s, rest) ← parseStatement f ts
    match rest with
    | (t, _) :: _ =>
      if isStmtStart t then do
        let (ss, rest2) ← parseStatements f rest
        Except.ok (s :: ss, rest2)
      else Except.ok ([s], rest)
    | [] => Except.ok ([s], [])

/-- p_params and p_param: empty, or INT IDENTIFIER groups separated by
commas, each param node carrying the parameter's name. -/
def parseParams : Nat → List TokL → Except PErr (List Node × List TokL)
  | 0, _ => Except.error PErr.fuelOut
  | f + 1, ts =>
    match ts with
    | (Tok.RPAREN, _) :: _ => Except.ok ([], ts)
    | (Tok.INT, _) :: rest => do
      let (name, r2) ← expectIdent rest
      parseMoreParams f [Node.mk "param" [] (PyVal.strV name)] r2
    | (t, ln) :: _ => Except.error (PErr.tokErr (tokVal t) ln)
    | [] => Except.error PErr.eofErr

/-- The left-recursive params COMMA param continuation. -/
def parseMoreParams : Nat → List Node → List TokL → Except PErr (List Node × List TokL)
  | 0, _, _ => Except.error PErr.fuelOut
  | f + 1, acc, ts =>
    match ts with
    | (Tok.COMMA, _) :: rest =>
      match rest with
      | (Tok.INT, _) :: r2 => do
        let (name, r3) ← expectIdent r2
        parseMoreParams f (acc ++ [Node.mk "param" [] (PyVal.strV name)]) r3
      | (t, ln) :: _ => Except.error (PErr.tokErr (tokVal t) ln)
      | [] => Except.error PErr.eofErr
    | _ => Except.ok (acc, ts)

/-- p_declarations: one or more field declarations inside a class body.
The redundant `INT IDENTIFIER SEMICOLON` alternatives of p_declarations
build the same tree as the p_declaration route that PLY actually reduces
by (the earlier production wins the reduce/reduce conflict), so a single
code path suffices. -/
def parseClassFields : Nat → List TokL → Except PErr (List Node × List TokL)
  | 0, _ => Except.error PErr.fuelOut
  | f + 1, ts => do
    let (d, rest) ← parseClassField f ts
    match rest with
    | (Tok.INT, _) :: _ => do
      let (ds, rest2) ← parseClassFields f rest
      Except.ok (d :: ds, rest2)
    | (Tok.FLOAT, _) :: _ => do
      let (ds, rest2) ← parseClassFields f rest
      Except.ok (d :: ds, rest2)
    | _ => Except.ok ([d], rest)

/-- One field declaration in a class body: the p_declaration forms, which
are the only statement productions reachable from p_declarations. -/
def parseClassField : Nat → List TokL → Except PErr (Node × List TokL)
  | 0, _ => Except.error PErr.fuelOut
  | f + 1, ts =>
    match ts with
    | (Tok.INT, _) :: (Tok.IDENTIFIER name, _) :: (Tok.EQUALS, _) :: rest => do
      let (e, r2) ← parseE f false 0 rest
      let r3 ← expect Tok.SEMICOLON r2
      Except.ok (Node.mk "declaration" [e] (PyVal.strV name), r3)
    | (Tok.INT, _) :: (Tok.IDENTIFIER name, _) :: (Tok.SEMICOLON, _) :: rest =>
      Except.ok (Node.mk "declaration" [] (PyVal.strV name), rest)
    | (Tok.INT, _) :: (Tok.IDENTIFIER _, _) :: (t, ln) :: _ =>
      Except.error (PErr.tokErr (tokVal t) ln)
    | (Tok.INT, _) :: (Tok.IDENTIFIER _, _) :: [] => Except.error PErr.eofErr
    | (Tok.INT, _) :: (t, ln) :: _ => Except.error (PErr.tokErr (tokVal t) ln)
    | (Tok.INT, _) :: [] => Except.error PErr.eofErr
    | (Tok.FLOAT, _) :: rest => do
      let (name, r2) ← expectIdent rest
      let r3 ← expect Tok.EQUALS r2
      let (e, r4) ← parseE f false 0 r3
      let r5 ← expect Tok.SEMICOLON r4
      Except.ok (Node.mk "declaration" [e] (PyVal.strV name), r5)
    | (t, ln) :: _ => Except.error (PErr.tokErr (tokVal t) ln)
    | [] => Except.error PErr.eofErr

end

/-- p_include and p_includes: the leading run of INCLUDE tokens, each made
into an include node carrying its matched text, in order. -/
def parseIncludes : List TokL → List Node × List TokL
  | (Tok.INCLUDE s, _) :: rest =>
    let pr := parseIncludes rest
    (Node.mk "include" [] (PyVal.strV s) :: pr.1, pr.2)
  | ts => ([], ts)

/-- Fuel amply covering the parser's call depth on a token list: calls
consume at least one token every few levels. -/
def parseFuel (ts : List TokL) : Nat := 8 * ts.length + 16

/-- p_program together with yacc's accept action: an optional run of
includes, then statements, then end of input (any leftover token is a
syntax error at that token).  Both productions of p_program keep only the
statements subtree in the program node; the includes node is discarded. -/
def parseProgram (ts : List TokL) : Except PErr Node :=
  let pr := parseIncludes ts
  match parseStatements (parseFuel pr.2) pr.2 with
  | Except.error e => Except.error e
  | Except.ok (ss, rest) =>
    match rest with
    | [] => Except.ok (Node.mk "program" [Node.mk "statements" ss PyVal.none] PyVal.none)
    | (t, ln) :: _ => Except.error (PErr.tokErr (tokVal t) ln)

/-- The message of the SyntaxError t_error raises. -/
def illegalCharMsg (c : Char) (n : Nat) : String :=
  "Illegal character \x27" ++ String.singleton c ++ "\x27 at line " ++ toString n

/-- The cross-call mutable state of the module-level PLY lexer: its line
counter.  lex.lex() initializes it to 1 at import; input() never resets
it, so it persists from one transpile call to the next. -/
structure LexerSt where
  lineno : Nat
deriving DecidableEq

/-- The transpile function: the lazily fused lex/parse pipeline under a
handler that catches the SyntaxError raised by t_error or p_error and
returns str(e) through the normal return channel.  When the scan ends in
a lexical fault, the parser still consumes the pre-fault token prefix: a
syntax error at one of those tokens is raised first (the fault character
is never scanned), while a parse that needs any token beyond the prefix
-- including the end marker read by acceptance -- triggers t_error.  The
second component is the lexer state left for the next call: the error
token's line after a syntax error, the fault line after a lexical fault,
the final counter otherwise. -/
def transpile (cpp_code : String) (st : LexerSt) : String × LexerSt :=
  match tokenize cpp_code st.lineno with
  | LexRes.toks ts fin =>
    match parseProgram ts with
    | Except.error (PErr.tokErr v ln) => (perrMsg (PErr.tokErr v ln), LexerSt.mk ln)
    | Except.error e => (perrMsg e, LexerSt.mk fin)
    | Except.ok ast => (generate_code ast 0, LexerSt.mk fin)
  | LexRes.err pre c n =>
    match parseProgram pre with
    | Except.error (PErr.tokErr v ln) => (perrMsg (PErr.tokErr v ln), LexerSt.mk ln)
    | Except.error PErr.eofErr => (illegalCharMsg c n, LexerSt.mk n)
    | Except.error PErr.fuelOut => (perrMsg PErr.fuelOut, LexerSt.mk n)
    | Except.ok _ => (illegalCharMsg c n, LexerSt.mk n)

/-- transpile as called on a freshly imported module (line counter 1),
keeping only the returned string. -/
def transpileFresh (cpp_code : String) : String :=
  (transpile cpp_code (LexerSt.mk 1)).1

/-- The try-block body of transpile viewed as a fallible computation: the
raised SyntaxError's message on failure, the AST handed to generate_code
on success, with the same lazily fused failure selection as transpile. -/
def pipeline (cpp_code : String) (st : LexerSt) : Except String Node :=
  match tokenize cpp_code st.lineno with
  | LexRes.toks ts _ =>
    match parseProgram ts with
    | Except.error e => Except.error (perrMsg e)
    | Except.ok ast => Except.ok ast
  | LexRes.err pre c n =>
    match parseProgram pre with
    | Except.error (PErr.tokErr v ln) => Except.error (perrMsg (PErr.tokErr v ln))
    | Except.error PErr.eofErr => Except.error (illegalCharMsg c n)
    | Except.error PErr.fuelOut => Except.error (perrMsg PErr.fuelOut)
    | Except.ok _ => Except.error (illegalCharMsg c n)

/-- Characters on which every branch of the lexAux dispatch fails, i.e.
characters that can begin no token rule's match: exactly where t_error
fires. -/
def noRule (c : Char) : Bool :=
  !(c = ' ') && !(c = '\t') && !(c = '\n') && !(isIdentStart c) && !(isDigitChar c) &&
  !(c = '"') && !(c = '#') && !(c = '/') && !(c = '+') && !(c = '-') && !(c = '&') &&
  !(c = '|') && !(c = '(') && !(c = ')') && !(c = '\x7b') && !(c = '\x7d') && !(c = ';') &&
  !(c = ',') && !(c = '=') && !(c = '*') && !(c = '<') && !(c = '>') && !(c = '!') &&
  !(c = ':') && !(c = '[') && !(c = ']')

/-- Recognizes the INCLUDE token kind, whichever of its two lexical forms
produced it. -/
def isIncludeTok : Tok → Bool
  | Tok.INCLUDE _ => true
  | _ => false

/-- An integer NUMBER token on line 1, for expression-shape statements. -/
def numT (x : Int) : TokL := (Tok.NUMBER (PyVal.intV x), 1)

/-- Any operator or punctuation token on line 1. -/
def opT (t : Tok) : TokL := (t, 1)

/-- The literal node p_expression builds for an integer NUMBER token. -/
def litN (x : Int) : Node := Node.mk "literal" [] (PyVal.intV x)

/-- The binop node p_expression builds for a binary operator. -/
def binN (op : String) (a b : Node) : Node := Node.mk "binop" [a, b] (PyVal.strV op)

/-- Claim C1: the spec says the generated ranged loop's upper bound is the
translated right-hand operand of the guard, with the example generating a
loop over i from 0 to 5.  The code stores the whole guard expression as
the for node's second child and generate_code interpolates its full
translation as the range's upper bound, so the example generates
range(0, i < 5), not range(0, 5): the claim describes the evident intent,
the code deviates from it. -/
theorem c1_for_upper_bound_is_whole_guard_translation :
    (∀ (ind : Nat) (v : PyVal) (e1 g b : Node),
      generate_code (Node.mk "for" [e1, g, b] v) ind =
        indentStr ind ++ "for " ++ pyStr v ++ " in range(" ++ generate_code e1 0 ++ ", " ++
          generate_code g 0 ++ "):\n" ++ generate_code b (ind + 1)) ∧
    transpileFresh "for (int i = 0; i < 5; i++) \x7b cout << i << endl; \x7d" =
      "for i in range(0, i < 5):\n    print(i, end=\x27\\n\x27)\n" :=
  ⟨fun _ _ _ _ _ => rfl, rfl⟩

/-- Claim C2: the module-level lexer's line counter survives from one
transpile call to the next (PLY's input() never resets lineno), so two
consecutive calls on the same two-line input report its illegal character
at line 2 and then at line 3 -- not identical results, and the second
diagnostic depends on the first call. -/
theorem c2_lexer_line_counter_leaks_across_calls :
    (transpile "int x = 5;\n@" (LexerSt.mk 1)).1 = "Illegal character \x27@\x27 at line 2" ∧
    (transpile "int x = 5;\n@" ((transpile "int x = 5;\n@" (LexerSt.mk 1)).2)).1 =
      "Illegal character \x27@\x27 at line 3" ∧
    "Illegal character \x27@\x27 at line 2" ≠ "Illegal character \x27@\x27 at line 3" :=
  ⟨rfl, rfl, by decide⟩

/-- Claim C3: every failure of the lexical or syntactic stages is returned
by transpile as the raised SyntaxError's message through the same return
channel as success, with nothing else: on a pipeline failure the returned
string is exactly the diagnostic, and on success exactly the generated
code. -/
theorem c3_failures_normalized_to_diagnostic_string (cpp_code : String) (st : LexerSt) :
    (∀ m : String, pipeline cpp_code st = Except.error m → (transpile cpp_code st).1 = m) ∧
    (∀ ast : Node, pipeline cpp_code st = Except.ok ast →
      (transpile cpp_code st).1 = generate_code ast 0) := by
  cases htok : tokenize cpp_code st.lineno with
  | err pre c n =>
    cases hp : parseProgram pre with
    | error e =>
      cases e <;>
        exact ⟨fun m hm => by
            simp [pipeline, htok, hp] at hm
            simp [transpile, htok, hp, hm],
          fun ast hast => by simp [pipeline, htok, hp] at hast⟩
    | ok ast0 =>
      exact ⟨fun m hm => by
          simp [pipeline, htok, hp] at hm
          simp [transpile, htok, hp, hm],
        fun ast hast => by simp [pipeline, htok, hp] at hast⟩
  | toks ts fin =>
    cases hp : parseProgram ts with
    | error e =>
      cases e <;>
        exact ⟨fun m hm => by
            simp [pipeline, htok, hp] at hm
            simp [transpile, htok, hp, hm],
          fun ast hast => by simp [pipeline, htok, hp] at hast⟩
    | ok ast0 =>
      exact ⟨fun m hm => by simp [pipeline, htok, hp] at hm,
        fun ast hast => by
          simp [pipeline, htok, hp] at hast
          simp [transpile, htok, hp, hast]⟩

/-- Witness for claim C3 at a concrete failing input: the lexical fault in
"@" comes back as the diagnostic string. -/
theorem c3_witness_lexical_failure_input :
    (transpile "@" (LexerSt.mk 1)).1 = "Illegal character \x27@\x27 at line 1" :=
  (c3_failures_normalized_to_diagnostic_string "@" (LexerSt.mk 1)).1
    "Illegal character \x27@\x27 at line 1" rfl

/-- Claim C4 counterexample: the claim says the comparison operators are
left-associative, but parsing x = 1 < 2 < 3; builds the right-nested tree
1 < (2 < 3) -- LT is absent from the precedence table, so yacc's default
shift wins -- and that tree differs from the left-nested one. -/
theorem c4_counterexample_comparison_chain_right_nested :
    parseProgram [(Tok.IDENTIFIER "x", 1), opT Tok.EQUALS, numT 1, opT Tok.LT,
        numT 2, opT Tok.LT, numT 3, opT Tok.SEMICOLON] =
      Except.ok (Node.mk "program" [Node.mk "statements"
        [Node.mk "assignment" [binN "<" (litN 1) (binN "<" (litN 2) (litN 3))]
          (PyVal.strV "x")] PyVal.none] PyVal.none) ∧
    binN "<" (litN 1) (binN "<" (litN 2) (litN 3)) ≠
      binN "<" (binN "<" (litN 1) (litN 2)) (litN 3) := by
  refine ⟨rfl, ?_⟩
  intro h
  simp [binN, litN] at h

/-- Claim C4 as amended: multiplicative operators bind tighter than
additive and both are left-associative, exactly as declared; the
comparison and logical operators bind less tightly than all arithmetic
operators, but being absent from the precedence table they resolve by
yacc's default shift and so are right-associative, not left-associative.
The claim's own example a + b < c still parses as a comparison whose left
operand is the sum. -/
theorem c4_amended_precedence_structure (x y z : Int) :
    parseE 32 false 0 [numT x, opT Tok.MULTIPLY, numT y, opT Tok.PLUS, numT z] =
      Except.ok (binN "+" (binN "*" (litN x) (litN y)) (litN z), []) ∧
    parseE 32 false 0 [numT x, opT Tok.PLUS, numT y, opT Tok.MULTIPLY, numT z] =
      Except.ok (binN "+" (litN x) (binN "*" (litN y) (litN z)), []) ∧
    parseE 32 false 0 [numT x, opT Tok.PLUS, numT y, opT Tok.PLUS, numT z] =
      Except.ok (binN "+" (binN "+" (litN x) (litN y)) (litN z), []) ∧
    parseE 32 false 0 [numT x, opT Tok.MINUS, numT y, opT Tok.MINUS, numT z] =
      Except.ok (binN "-" (binN "-" (litN x) (litN y)) (litN z), []) ∧
    parseE 32 false 0 [numT x, opT Tok.MULTIPLY, numT y, opT Tok.MULTIPLY, numT z] =
      Except.ok (binN "*" (binN "*" (litN x) (litN y)) (litN z), []) ∧
    parseE 32 false 0 [numT x, opT Tok.DIVIDE, numT y, opT Tok.DIVIDE, numT z] =
      Except.ok (binN "/" (binN "/" (litN x) (litN y)) (litN z), []) ∧
    parseE 32 false 0 [numT x, opT Tok.PLUS, numT y, opT Tok.LT, numT z] =
      Except.ok (binN "<" (binN "+" (litN x) (litN y)) (litN z), []) ∧
    parseE 32 false 0 [numT x, opT Tok.LT, numT y, opT Tok.PLUS, numT z] =
      Except.ok (binN "<" (litN x) (binN "+" (litN y) (litN z)), []) ∧
    parseE 32 false 0 [numT x, opT Tok.MULTIPLY, numT y, opT Tok.AND, numT z] =
      Except.ok (binN "&&" (binN "*" (litN x) (litN y)) (litN z), []) ∧
    parseE 32 false 0 [numT x, opT Tok.AND, numT y, opT Tok.MULTIPLY, numT z] =
      Except.ok (binN "&&" (litN x) (binN "*" (litN y) (litN z)), []) ∧
    parseE 32 false 0 [numT x, opT Tok.LT, numT y, opT Tok.LT, numT z] =
      Except.ok (binN "<" (litN x) (binN "<" (litN y) (litN z)), []) ∧
    parseE 32 false 0 [numT x, opT Tok.GT, numT y, opT Tok.GT, numT z] =
      Except.ok (binN ">" (litN x) (binN ">" (litN y) (litN z)), []) ∧
    parseE 32 false 0 [numT x, opT Tok.AND, numT y, opT Tok.AND, numT z] =
      Except.ok (binN "&&" (litN x) (binN "&&" (litN y) (litN z)), []) ∧
    parseE 32 false 0 [numT x, opT Tok.OR, numT y, opT Tok.OR, numT z] =
      Except.ok (binN "||" (litN x) (binN "||" (litN y) (litN z)), []) :=
  ⟨rfl, rfl, rfl, rfl, rfl, rfl, rfl, rfl, rfl, rfl, rfl, rfl, rfl, rfl⟩

/-- Claim C5 counterexample: the claim says an output statement may chain
two expressions, but cout << 1 << 2; is a syntax error -- the second '<<'
commits the parser to the endl form, which then rejects the 2. -/
theorem c5_counterexample_two_chained_expressions_rejected :
    transpileFresh "cout << 1 << 2;" = "Syntax error at \x272\x27 on line 1" := rfl

/-- Claim C5 as amended: an output statement chains exactly one expression
after cout, and a second chained expression is a syntax error (last
conjunct).  Without the end-of-line marker the single expression is
unrestricted: both a primary and a comparison expression are accepted
(first and third conjuncts, and the concrete print of a < b).  With the
end-of-line marker, parsing succeeds when the expression is complete
before the marker's first '<' -- a primary, or any expression whose
rightmost top-level operator is arithmetic (second and fourth conjuncts)
-- but when the expression ends inside the right operand of a comparison
or logical operator, that operand is right-recursive under the
default-shift resolution, so the marker's first '<' is captured by the
expression and its second '<' is a syntax error (fifth conjunct and the
concrete cout << a < b << endl; rejection). -/
theorem c5_amended_output_single_expression (v : PyVal) (x y : Int) :
    parseStatement 32 [opT Tok.COUT, opT Tok.LT, opT Tok.LT, (Tok.NUMBER v, 1),
        opT Tok.SEMICOLON] =
      Except.ok (Node.mk "output" [Node.mk "literal" [] v] (PyVal.strV ""), []) ∧
    parseStatement 32 [opT Tok.COUT, opT Tok.LT, opT Tok.LT, (Tok.NUMBER v, 1),
        opT Tok.LT, opT Tok.LT, opT Tok.ENDL, opT Tok.SEMICOLON] =
      Except.ok (Node.mk "output" [Node.mk "literal" [] v] (PyVal.strV "endl"), []) ∧
    parseStatement 32 [opT Tok.COUT, opT Tok.LT, opT Tok.LT, numT x, opT Tok.LT,
        numT y, opT Tok.SEMICOLON] =
      Except.ok (Node.mk "output" [binN "<" (litN x) (litN y)] (PyVal.strV ""), []) ∧
    parseStatement 32 [opT Tok.COUT, opT Tok.LT, opT Tok.LT, numT x, opT Tok.PLUS,
        numT y, opT Tok.LT, opT Tok.LT, opT Tok.ENDL, opT Tok.SEMICOLON] =
      Except.ok (Node.mk "output" [binN "+" (litN x) (litN y)] (PyVal.strV "endl"), []) ∧
    parseStatement 32 [opT Tok.COUT, opT Tok.LT, opT Tok.LT, numT x, opT Tok.LT,
        numT y, opT Tok.LT, opT Tok.LT, opT Tok.ENDL, opT Tok.SEMICOLON] =
      Except.error (PErr.tokErr "<" 1) ∧
    transpileFresh "cout << a < b;" = "print(a < b, end=\x27\x27)\n" ∧
    transpileFresh "cout << a + b << endl;" = "print(a + b, end=\x27\\n\x27)\n" ∧
    transpileFresh "cout << a < b << endl;" = "Syntax error at \x27<\x27 on line 1" ∧
    transpileFresh "cout << x << y;" = "Syntax error at \x27y\x27 on line 1" :=
  ⟨rfl, rfl, rfl, rfl, rfl, rfl, rfl, rfl, rfl⟩

/-- Claim C6: a declaration with an initializer generates a binding of the
declared name to the translated initializer, one without generates a
binding to zero, both newline-terminated and prefixed with the current
indentation; int x = 5; at top level generates x = 5 at zero
indentation. -/
theorem c6_declaration_generation :
    (∀ (ind : Nat) (name : String) (e : Node),
      generate_code (Node.mk "declaration" [e] (PyVal.strV name)) ind =
        indentStr ind ++ name ++ " = " ++ generate_code e 0 ++ "\n") ∧
    (∀ (ind : Nat) (name : String),
      generate_code (Node.mk "declaration" [] (PyVal.strV name)) ind =
        indentStr ind ++ name ++ " = 0\n") ∧
    transpileFresh "int x = 5;" = "x = 5\n" :=
  ⟨fun _ _ _ => rfl, fun _ _ => rfl, rfl⟩

/-- Claim C7 counterexample: the claim quantifies over every input
containing a character matched by no token rule, but lexing is lazy: on
"int int @" the parser fails at the second int before the scan ever
reaches the '@', so the call returns the syntax diagnostic -- which does
not abort at '@', is not lexical, and does not contain '@' -- refuting
the claim as stated. -/
theorem c7_counterexample_syntax_error_preempts_scan :
    transpileFresh "int int @" = "Syntax error at \x27int\x27 on line 1" ∧
    '@' ∈ "int int @".data ∧
    noRule '@' = true ∧
    '@' ∉ (transpileFresh "int int @").data :=
  ⟨rfl, by decide, by decide, by decide⟩

/-- Claim C7 as amended: when the scan reaches a character that no token
rule can begin to match, the lexical pass aborts right there with that
character and the current line (first conjunct); when a transpile call's
scan ends at such a fault and no syntax error confined to the tokens
before it preempts the fault -- the lazily pulling parser either needs a
token beyond them or accepts them, in both cases requesting the faulting
scan -- the call returns exactly the t_error diagnostic naming the
character and its 1-based line, and no generated text (second conjunct);
'@' is such a character, and a well-formed first line followed by '@'
yields the diagnostic naming '@' and line 1 (last conjuncts). -/
theorem c7_amended_lexical_failure_when_scan_reached :
    (∀ (f : Nat) (c : Char) (cs : List Char) (n : Nat), noRule c = true →
      lexAux (f + 1) (c :: cs) n = LexRes.err [] c n) ∧
    (∀ (code : String) (st : LexerSt) (pre : List TokL) (c : Char) (n : Nat),
      tokenize code st.lineno = LexRes.err pre c n →
      (parseProgram pre = Except.error PErr.eofErr ∨
        ∃ ast, parseProgram pre = Except.ok ast) →
      transpile code st = (illegalCharMsg c n, LexerSt.mk n)) ∧
    noRule '@' = true ∧
    transpileFresh "int y = 2; @" = "Illegal character \x27@\x27 at line 1" := by
  refine ⟨?_, ?_, by decide, rfl⟩
  · intro f c cs n h
    simp only [noRule, Bool.and_eq_true, Bool.not_eq_true', decide_eq_false_iff_not] at h
    simp [lexAux, h]
  · intro code st pre c n htok hreach
    rcases hreach with hp | ⟨ast, hp⟩ <;> simp [transpile, htok, hp]

/-- Witness for claim C7 as amended: the general abort fact applied at a
concrete '@', and the diagnostic fact applied to the concrete call on
"int y = 2; @", whose pre-fault token prefix parses as a program. -/
theorem c7_witness_at_sign :
    lexAux 3 ['@'] 7 = LexRes.err [] '@' 7 ∧
    transpile "int y = 2; @" (LexerSt.mk 1) =
      ("Illegal character \x27@\x27 at line 1", LexerSt.mk 1) :=
  ⟨c7_amended_lexical_failure_when_scan_reached.1 2 '@' [] 7 (by decide),
   c7_amended_lexical_failure_when_scan_reached.2.1 "int y = 2; @" (LexerSt.mk 1)
     [(Tok.INT, 1), (Tok.IDENTIFIER "y", 1), (Tok.EQUALS, 1),
      (Tok.NUMBER (PyVal.intV 2), 1), (Tok.SEMICOLON, 1)] '@' 1 rfl
     (Or.inr ⟨Node.mk "program" [Node.mk "statements"
        [Node.mk "declaration" [Node.mk "literal" [] (PyVal.intV 2)] (PyVal.strV "y")]
        PyVal.none] PyVal.none, rfl⟩)⟩

/-- Claim C8: a class generates a nominal type whose only member is an
initializer taking just the implicit instance parameter and setting every
declared field to zero -- the generated text is exactly the class header,
the def __init__(self) header and one zeroing line per field, nothing
else; the two-field example generates precisely those lines. -/
theorem c8_class_generation_single_ctor :
    (∀ (ind : Nat) (name : String) (ds : List Node),
      generate_code (Node.mk "class" [Node.mk "declarations" ds PyVal.none]
          (PyVal.strV name)) ind =
        indentStr ind ++ "class " ++ name ++ ":\n" ++
          indentStr ind ++ "    def __init__(self):\n" ++
          classFieldLines ds (indentStr ind)) ∧
    transpileFresh "class P \x7b int x; int y; \x7d;" =
      "class P:\n    def __init__(self):\n        self.x = 0\n        self.y = 0\n" :=
  ⟨fun _ _ _ => rfl, rfl⟩

/-- Statement-level helper for claim C9: a leading INCLUDE token never
changes the parse result, because p_program keeps only the statements
subtree. -/
theorem parseProgram_cons_include (s : String) (ln : Nat) (rest : List TokL) :
    parseProgram ((Tok.INCLUDE s, ln) :: rest) = parseProgram rest := rfl

/-- Claim C9: include directives contribute nothing -- parsing any run of
INCLUDE tokens followed by the remaining tokens gives exactly the parse of
the remaining tokens (the includes subtree is discarded by p_program), and
on the example input transpile returns the same text with and without the
directive. -/
theorem c9_includes_contribute_nothing :
    (∀ (incs ts : List TokL), incs.all (fun p => isIncludeTok p.1) = true →
      parseProgram (incs ++ ts) = parseProgram ts) ∧
    transpileFresh "#include <iostream>\nint x = 5;" = transpileFresh "int x = 5;" := by
  refine ⟨?_, rfl⟩
  intro incs ts
  induction incs with
  | nil => intro _; rfl
  | cons p rest ih =>
    intro h
    obtain ⟨t, ln⟩ := p
    simp only [List.all_cons, Bool.and_eq_true] at h
    obtain ⟨h1, h2⟩ := h
    cases t <;> simp [isIncludeTok] at h1
    rw [List.cons_append, parseProgram_cons_include]
    exact ih h2

/-- Witness for claim C9: the token-level equality applied to one concrete
include token in front of a concrete declaration. -/
theorem c9_witness_concrete_include :
    parseProgram ([(Tok.INCLUDE "#include <iostream>", 1)] ++
        [(Tok.INT, 2), (Tok.IDENTIFIER "x", 2), (Tok.SEMICOLON, 2)]) =
      parseProgram [(Tok.INT, 2), (Tok.IDENTIFIER "x", 2), (Tok.SEMICOLON, 2)] :=
  c9_includes_contribute_nothing.1 [(Tok.INCLUDE "#include <iostream>", 1)]
    [(Tok.INT, 2), (Tok.IDENTIFIER "x", 2), (Tok.SEMICOLON, 2)] (by decide)

/-- Claim C10: a class field declared with an initializer is accepted by
the grammar (first conjunct parses int x = 5; as a field), but the
generated class text is identical to the one for the same field without
the initializer (second conjunct), and on the concrete class the output
zeroes the field and contains the digit 5 nowhere. -/
theorem c10_field_initializer_ignored :
    (∀ (fname : String) (v : PyVal) (ln : Nat),
      parseClassField 32 [(Tok.INT, ln), (Tok.IDENTIFIER fname, ln), (Tok.EQUALS, ln),
          (Tok.NUMBER v, ln), (Tok.SEMICOLON, ln)] =
        Except.ok (Node.mk "declaration" [Node.mk "literal" [] v] (PyVal.strV fname), [])) ∧
    (∀ (ind : Nat) (cname fname : String) (e : Node),
      generate_code (Node.mk "class" [Node.mk "declarations"
          [Node.mk "declaration" [e] (PyVal.strV fname)] PyVal.none]
          (PyVal.strV cname)) ind =
        generate_code (Node.mk "class" [Node.mk "declarations"
          [Node.mk "declaration" [] (PyVal.strV fname)] PyVal.none]
          (PyVal.strV cname)) ind) ∧
    transpileFresh "class P \x7b int x = 5; \x7d;" =
      "class P:\n    def __init__(self):\n        self.x = 0\n" ∧
    '5' ∉ (transpileFresh "class P \x7b int x = 5; \x7d;").data :=
  ⟨fun _ _ _ => rfl, fun _ _ _ _ => rfl, rfl, by decide⟩
